import Mathlib

/-!
Verification of the BACnet/SC connection-management core (hub connector and
node aggregate) against its natural-language specification.  The definitions
below are a shallow embedding of `bsc-hub-connector.c` and `bsc-node.c`:
pure data is translated to Lean structures, the C state machines become
explicit state-passing step functions, and external collaborators (the
transport layer, the BVLC-SC codec, the websocket runloop) are supplied as
oracle parameters, exactly at the points where the C code calls out to them.
-/

/-- Return codes of the BACnet/SC core (`BSC_SC_RET` in the sources).
`OTHER_ERROR` stands for any of the remaining concrete error codes; the
code under study only ever tests for `SUCCESS` and `DUPLICATED_VMAC`. -/
inductive BscRet
  | SUCCESS
  | BAD_PARAM
  | INVALID_OPERATION
  | NO_RESOURCES
  | DUPLICATED_VMAC
  | OTHER_ERROR
  deriving DecidableEq, Repr

/-- States of the hub-connector state machine
(`BSC_HUB_CONNECTOR_STATE` in `bsc-hub-connector.c`). -/
inductive HubConnState
  | IDLE
  | CONNECTING_PRIMARY
  | CONNECTING_FAILOVER
  | CONNECTED_PRIMARY
  | CONNECTED_FAILOVER
  | WAIT_FOR_RECONNECT
  | WAIT_FOR_CTX_DEINIT
  | ERROR
  deriving DecidableEq, Repr

/-- Which of the two hub socket slots is addressed
(`BSC_HUB_CONN_TYPE`). -/
inductive HubConnType
  | PRIMARY
  | FAILOVER
  deriving DecidableEq, Repr

/-- Events the hub connector delivers to its owner
(`BSC_HUB_CONNECTOR_EVENT`, restricted to those emitted in the file). -/
inductive HubEvent
  | CONNECTED_PRIMARY
  | CONNECTED_FAILOVER
  | DISCONNECTED
  | RECEIVED
  | STOPPED
  deriving DecidableEq, Repr

/-- Externally visible effects of the hub connector: calls into the
transport (`bsc_connect`, `bsc_deinit_ctx`, `bsc_init_сtx`), the runloop
(`bsc_runloop_reg` / `bsc_runloop_unreg`), the millisecond timer
(`mstimer_set`) and the owner's `event_func`. -/
inductive HubAction
  | connect (t : HubConnType) (pduSent : List Nat)
  | runloopReg
  | runloopUnreg
  | ctxInit
  | ctxDeinit
  | armTimer (ms : Nat)
  | emit (e : HubEvent) (err : BscRet) (pdu : List Nat)
  deriving DecidableEq, Repr

/-- The mutable state of the singleton `BSC_HUB_CONNECTOR` plus the
`bsc_hub_connector_started` flag.  The socket slots themselves belong to
the transport layer and are not part of the core state; `timerMs` records
the value last handed to `mstimer_set`. -/
structure HubConnector where
  state : HubConnState
  started : Bool
  reconnect_timeout_s : Nat
  timerMs : Nat
  primaryUrl : List Nat
  failoverUrl : List Nat
  error : BscRet
  deriving DecidableEq, Repr

/-- `bsc_hub_connector_stop`: when started and not already waiting for the
context to deinitialize, move to `WAIT_FOR_CTX_DEINIT`, unregister from the
runloop and request context deinit; otherwise do nothing. -/
def bsc_hub_connector_stop (h : HubConnector) : HubConnector × List HubAction :=
  if h.started = true ∧ h.state ≠ HubConnState.WAIT_FOR_CTX_DEINIT then
    ({ h with state := HubConnState.WAIT_FOR_CTX_DEINIT },
      [HubAction.runloopUnreg, HubAction.ctxDeinit])
  else
    (h, [])

/-- `hub_connector_connect_or_stop`: enter the CONNECTING state for the
requested slot and call `bsc_connect`; `connRet` is that call's result.
On a fatal connect error, latch it, enter ERROR and request stop. -/
def hub_connector_connect_or_stop (connRet : BscRet) (t : HubConnType)
    (h : HubConnector) : HubConnector × List HubAction :=
  let h1 := { h with
    state := if t = HubConnType.PRIMARY then HubConnState.CONNECTING_PRIMARY
             else HubConnState.CONNECTING_FAILOVER }
  if connRet = BscRet.SUCCESS then
    (h1, [HubAction.connect t []])
  else
    let h2 := { h1 with state := HubConnState.ERROR, error := connRet }
    let r := bsc_hub_connector_stop h2
    (r.1, HubAction.connect t [] :: r.2)

/-- `hub_connector_process_state`, the runloop callback: while waiting for
reconnect, once the timer has expired begin a new connect to primary.
`timerExpired` is the value `mstimer_expired` would report. -/
def hub_connector_process_state (connRet : BscRet) (timerExpired : Bool)
    (h : HubConnector) : HubConnector × List HubAction :=
  if h.state = HubConnState.WAIT_FOR_RECONNECT ∧ timerExpired = true then
    hub_connector_connect_or_stop connRet HubConnType.PRIMARY h
  else
    (h, [])

/-- Socket events delivered by the transport (`BSC_SOCKET_EVENT`). -/
inductive SocketEvent
  | connected
  | disconnected (err : BscRet)
  | received (pdu : List Nat)
  deriving DecidableEq, Repr

/-- `hub_connector_socket_event`: the transition function of the
hub-connector state machine on socket events.  `connRet` is the result of
any `bsc_connect` call performed during this step. -/
def hub_connector_socket_event (connRet : BscRet) (h : HubConnector) :
    SocketEvent → HubConnector × List HubAction
  | SocketEvent.connected =>
    if h.state = HubConnState.CONNECTING_PRIMARY then
      ({ h with state := HubConnState.CONNECTED_PRIMARY },
        [HubAction.emit HubEvent.CONNECTED_PRIMARY BscRet.SUCCESS []])
    else if h.state = HubConnState.CONNECTING_FAILOVER then
      ({ h with state := HubConnState.CONNECTED_FAILOVER },
        [HubAction.emit HubEvent.CONNECTED_FAILOVER BscRet.SUCCESS []])
    else
      (h, [])
  | SocketEvent.disconnected err =>
    if err = BscRet.DUPLICATED_VMAC then
      let h1 := { h with state := HubConnState.ERROR,
                         error := BscRet.DUPLICATED_VMAC }
      let r := bsc_hub_connector_stop h1
      (r.1, HubAction.emit HubEvent.DISCONNECTED BscRet.DUPLICATED_VMAC [] :: r.2)
    else if h.state = HubConnState.CONNECTING_PRIMARY then
      hub_connector_connect_or_stop connRet HubConnType.FAILOVER h
    else if h.state = HubConnState.CONNECTING_FAILOVER then
      ({ h with state := HubConnState.WAIT_FOR_RECONNECT,
                timerMs := h.reconnect_timeout_s * 1000 },
        [HubAction.armTimer (h.reconnect_timeout_s * 1000)])
    else if h.state = HubConnState.CONNECTED_PRIMARY ∨
        h.state = HubConnState.CONNECTED_FAILOVER then
      let r := hub_connector_connect_or_stop connRet HubConnType.PRIMARY h
      (r.1, HubAction.emit HubEvent.DISCONNECTED err [] :: r.2)
    else
      (h, [])
  | SocketEvent.received pdu =>
    (h, [HubAction.emit HubEvent.RECEIVED BscRet.SUCCESS pdu])

/-- Context events delivered by the transport (`BSC_CTX_EVENT`). -/
inductive CtxEvent
  | DEINITIALIZED
  | OTHER
  deriving DecidableEq, Repr

/-- `hub_connector_context_event`: on context deinit, record whether the
connector was started, latch the state at that moment, fall back to IDLE,
and (only if it was started) emit STOPPED carrying the latched error when
the state was ERROR and success otherwise. -/
def hub_connector_context_event (h : HubConnector) :
    CtxEvent → HubConnector × List HubAction
  | CtxEvent.DEINITIALIZED =>
    let was := h.started
    let st := h.state
    let h1 := { h with started := false, state := HubConnState.IDLE }
    if was = true then
      if st = HubConnState.ERROR then
        (h1, [HubAction.emit HubEvent.STOPPED h.error []])
      else
        (h1, [HubAction.emit HubEvent.STOPPED BscRet.SUCCESS []])
    else
      (h1, [])
  | CtxEvent.OTHER => (h, [])

/-- One input to the hub connector: a socket event, a context event, or a
runloop tick (carrying the timer-expiry observation for that tick). -/
inductive HubInput
  | sock (e : SocketEvent)
  | ctx (e : CtxEvent)
  | tick (timerExpired : Bool)
  deriving DecidableEq, Repr

/-- Dispatch one input to the corresponding C callback. -/
def hubStep (connRet : BscRet) (h : HubConnector) : HubInput → HubConnector × List HubAction
  | HubInput.sock e => hub_connector_socket_event connRet h e
  | HubInput.ctx e => hub_connector_context_event h e
  | HubInput.tick te => hub_connector_process_state connRet te h

/-- The state reached after one input. -/
def hubStepState (connRet : BscRet) (h : HubConnector) (i : HubInput) : HubConnector :=
  (hubStep connRet h i).1

/-- The state reached after a sequence of inputs. -/
def hubRunState (connRet : BscRet) (h : HubConnector) (l : List HubInput) : HubConnector :=
  l.foldl (hubStepState connRet) h

/-- Arguments of `bsc_hub_connector_start`; pointer arguments become `Bool`
(non-null) or `Option` (for the URL strings, whose contents matter). -/
structure HubStartArgs where
  ca_cert_chain : Bool
  ca_cert_chain_size : Nat
  cert_chain : Bool
  cert_chain_size : Nat
  key : Bool
  key_size : Nat
  local_uuid : Bool
  local_vmac : Bool
  max_local_bvlc_len : Nat
  max_local_npdu_len : Nat
  connect_timeout_s : Nat
  heartbeat_timeout_s : Nat
  disconnect_timeout_s : Nat
  primaryURL : Option (List Nat)
  failoverURL : Option (List Nat)
  reconnect_timeout_s : Nat
  event_func : Bool
  deriving DecidableEq, Repr

/-- The first validation block of `bsc_hub_connector_start`: any null
pointer or zero numeric argument is rejected. -/
def hubStartNullZero (a : HubStartArgs) : Bool :=
  !a.ca_cert_chain || a.ca_cert_chain_size = 0 || !a.cert_chain ||
  a.cert_chain_size = 0 || !a.key || a.key_size = 0 || !a.local_uuid ||
  !a.local_vmac || a.max_local_npdu_len = 0 || a.max_local_bvlc_len = 0 ||
  a.connect_timeout_s = 0 || a.heartbeat_timeout_s = 0 ||
  a.disconnect_timeout_s = 0 || a.primaryURL = none || a.failoverURL = none ||
  a.reconnect_timeout_s = 0 || !a.event_func

/-- The second validation block: either URL longer than `BSC_WSURL_MAX_LEN`
(the bound is the parameter `maxUrlLen`) is rejected. -/
def hubStartUrlTooLong (maxUrlLen : Nat) (a : HubStartArgs) : Bool :=
  (a.primaryURL.getD []).length > maxUrlLen ||
  (a.failoverURL.getD []).length > maxUrlLen

/-- `bsc_hub_connector_start`: validation, configuration copy, runloop
registration, context init in initiator role, first connect to primary.
`regRet`, `ctxRet` and `connRet` are the results of the three external
calls (`bsc_runloop_reg`, `bsc_init_сtx`, `bsc_connect`). -/
def bsc_hub_connector_start (maxUrlLen : Nat)
    (regRet ctxRet connRet : BscRet) (h : HubConnector) (a : HubStartArgs) :
    HubConnector × List HubAction × BscRet :=
  if hubStartNullZero a = true then
    (h, [], BscRet.BAD_PARAM)
  else if hubStartUrlTooLong maxUrlLen a = true then
    (h, [], BscRet.BAD_PARAM)
  else if h.started = true then
    (h, [], BscRet.INVALID_OPERATION)
  else
    let h1 := { h with
      reconnect_timeout_s := a.reconnect_timeout_s,
      primaryUrl := a.primaryURL.getD [],
      failoverUrl := a.failoverURL.getD [] }
    if regRet ≠ BscRet.SUCCESS then
      (h1, [HubAction.runloopReg], regRet)
    else if ctxRet ≠ BscRet.SUCCESS then
      ({ h1 with state := HubConnState.CONNECTING_PRIMARY },
        [HubAction.runloopReg, HubAction.ctxInit], ctxRet)
    else if connRet ≠ BscRet.SUCCESS then
      ({ h1 with state := HubConnState.IDLE },
        [HubAction.runloopReg, HubAction.ctxInit,
          HubAction.connect HubConnType.PRIMARY [],
          HubAction.runloopUnreg, HubAction.ctxDeinit], connRet)
    else
      ({ h1 with state := HubConnState.CONNECTING_PRIMARY, started := true },
        [HubAction.runloopReg, HubAction.ctxInit,
          HubAction.connect HubConnType.PRIMARY []], BscRet.SUCCESS)

/-- `bsc_hub_connector_send` as a transformer of the recursive-mutex hold
count: it locks on entry, but its `INVALID_OPERATION` path returns without
unlocking (source lines 317-325).  `sendRet` is the `bsc_send` result. -/
def bsc_hub_connector_sendCount (h : HubConnector) (sendRet : BscRet)
    (lock : Nat) : Nat × BscRet :=
  let l1 := lock + 1
  if ¬(h.started = true) ∨ (h.state ≠ HubConnState.CONNECTED_PRIMARY ∧
      h.state ≠ HubConnState.CONNECTED_FAILOVER) then
    (l1, BscRet.INVALID_OPERATION)
  else
    (l1 - 1, sendRet)

/-- Node lifecycle states (`BSC_NODE_STATE` in `bsc-node.c`). -/
inductive BscNodeState
  | IDLE
  | STARTING
  | STARTED
  | RESTARTING
  | STOPPING
  deriving DecidableEq, Repr

/-- One entry of the node's address-resolution table
(`BSC_ADDRESS_RESOLUTION`): a used flag, the remote VMAC, the stored URL
list (`utf8_urls` up to `urls_num`) and the freshness timer, modelled by
the value `mstimer_expired(&fresh_timer)` would report at the current
instant.  `mstimer_restart` makes the timer fresh again. -/
structure ResolutionEntry where
  used : Bool
  vmac : List Nat
  urls : List (List Nat)
  freshExpired : Bool
  deriving DecidableEq, Repr

/-- The per-node state of `struct BSC_Node`, with the sub-component
handles as non-null flags and the enable switches copied out of the
configuration (`BSC_NODE_CONF`). -/
structure NodeState where
  state : BscNodeState
  localVmac : List Nat
  hubConnector : Bool
  hubFunction : Bool
  nodeSwitch : Bool
  hubFunctionEnabled : Bool
  nodeSwitchEnabled : Bool
  resolution : List ResolutionEntry
  deriving DecidableEq, Repr

/-- Status bits reported by the sub-components when the node polls them
(`bsc_hub_connector_stopped`, `bsc_hub_function_stopped` /
`bsc_hub_function_started`, `bsc_node_switch_stopped` /
`bsc_node_switch_started`); these live outside the sources under study, so
they are oracle inputs.  `hubConnectorStarted` is never consulted by the
code and exists only so that the specification's aggregate-started
conjunction can be stated. -/
structure SubStatus where
  hubConnectorStopped : Bool
  hubFunctionStopped : Bool
  nodeSwitchStopped : Bool
  hubConnectorStarted : Bool
  hubFunctionStarted : Bool
  nodeSwitchStarted : Bool
  deriving DecidableEq, Repr

/-- The "all sub-components stopped" predicate exactly as computed by
`bsc_node_process_stop_event` (source lines 121-149). -/
def allStopped (n : NodeState) (s : SubStatus) : Bool :=
  (!n.hubFunctionEnabled || !n.hubFunction || s.hubFunctionStopped) &&
  (!n.nodeSwitch || !n.nodeSwitchEnabled || s.nodeSwitchStopped) &&
  (!n.hubConnector || s.hubConnectorStopped)

/-- The "all sub-components started" predicate exactly as computed by
`bsc_node_process_start_event` (source lines 168-181): only the hub
function and the node switch are consulted, never the hub connector. -/
def allStarted (n : NodeState) (s : SubStatus) : Bool :=
  (!n.hubFunction || !n.hubFunctionEnabled || s.hubFunctionStarted) &&
  (!n.nodeSwitch || !n.nodeSwitchEnabled || s.nodeSwitchStarted)

/-- Modelled from the spec: the aggregate "all stopped" conjunction as the
specification words it — (hub-connector handle null or stopped) and
(hub-function not enabled or handle null or stopped) and (node-switch not
enabled or handle null or stopped). -/
def allStoppedClaim (n : NodeState) (s : SubStatus) : Bool :=
  (!n.hubConnector || s.hubConnectorStopped) &&
  (!n.hubFunctionEnabled || !n.hubFunction || s.hubFunctionStopped) &&
  (!n.nodeSwitchEnabled || !n.nodeSwitch || s.nodeSwitchStopped)

/-- Modelled from the spec: the "analogous conjunction with started",
including the hub-connector clause the specification's analogy implies. -/
def allStartedClaim (n : NodeState) (s : SubStatus) : Bool :=
  (!n.hubConnector || s.hubConnectorStarted) &&
  (!n.hubFunctionEnabled || !n.hubFunction || s.hubFunctionStarted) &&
  (!n.nodeSwitchEnabled || !n.nodeSwitch || s.nodeSwitchStarted)

/-- Node-level events delivered to the owner's `event_func`
(`BSC_NODE_EVENT`). -/
inductive NodeEvent
  | STARTED
  | STOPPED
  | RESTARTED
  | RECEIVED (pdu : List Nat)
  deriving DecidableEq, Repr

/-- A response PDU synthesized by `bsc_node_process_received`; the BVLC-SC
encoder is external, so responses are modelled by what was encoded. -/
inductive ErrCode
  | HEADER_NOT_UNDERSTOOD
  | OPTIONAL_FUNCTIONALITY_NOT_SUPPORTED
  deriving DecidableEq, Repr

/-- What the node sends back on the `bsc_node_send` path in reaction to a
control PDU. -/
inductive SentMsg
  | resultNak (code : ErrCode) (marker : Option Nat)
  | advertisement
  | addressResolutionAck
  deriving DecidableEq, Repr

/-- Externally visible effects of the node aggregate: owner events,
start/stop requests on the three sub-components, synthesized responses and
the hand-off of a resolution entry to the node switch
(`bsc_node_switch_process_address_resolution`, by table index). -/
inductive NodeAction
  | emit (e : NodeEvent)
  | stopHubConnector
  | stopHubFunction
  | stopNodeSwitch
  | startHubConnector
  | startHubFunction
  | startNodeSwitch
  | send (m : SentMsg)
  | procAddrRes (idx : Nat)
  deriving DecidableEq, Repr

/-- Results of the three sub-component start calls made by
`bsc_node_start_state`, plus the value produced by the VMAC regeneration.
Modelled from the spec: `bsc_generate_random_vmac` is not among the
sources under study; per the specification it regenerates the local VMAC
to a fresh random value, delivered here as the oracle field `freshVmac`. -/
structure StartOracle where
  hubConnectorRet : BscRet
  hubFunctionRet : BscRet
  nodeSwitchRet : BscRet
  freshVmac : List Nat
  deriving DecidableEq, Repr

/-- `bsc_node_start_state` (source lines 534-615): reset the handles, zero
the resolution table on a fresh start or regenerate the VMAC on a restart,
then start the hub connector, the hub function (if enabled) and the node
switch (if enabled), rolling back with stop requests on failure. -/
def bsc_node_start_state (o : StartOracle) (st : BscNodeState) (n : NodeState) :
    NodeState × List NodeAction × BscRet :=
  let n1 := { n with state := st, hubConnector := false, hubFunction := false,
                     nodeSwitch := false }
  let n2 :=
    if st ≠ BscNodeState.RESTARTING then
      { n1 with resolution := n1.resolution.map (fun _ =>
          ResolutionEntry.mk false [] [] false) }
    else
      { n1 with localVmac := o.freshVmac }
  if o.hubConnectorRet ≠ BscRet.SUCCESS then
    ({ n2 with state := BscNodeState.IDLE },
      [NodeAction.startHubConnector], o.hubConnectorRet)
  else
    let n3 := { n2 with hubConnector := true }
    if n3.hubFunctionEnabled = true ∧ o.hubFunctionRet ≠ BscRet.SUCCESS then
      ({ n3 with state := BscNodeState.IDLE },
        [NodeAction.startHubConnector, NodeAction.startHubFunction,
          NodeAction.stopHubConnector], o.hubFunctionRet)
    else
      let n4 := if n3.hubFunctionEnabled = true then
          { n3 with hubFunction := true } else n3
      if n4.nodeSwitchEnabled = true ∧ o.nodeSwitchRet ≠ BscRet.SUCCESS then
        ({ n4 with state := BscNodeState.IDLE },
          [NodeAction.startHubConnector] ++
            (if n4.hubFunctionEnabled = true then
              [NodeAction.startHubFunction] else []) ++
            [NodeAction.startNodeSwitch, NodeAction.stopHubConnector,
              NodeAction.stopHubFunction], o.nodeSwitchRet)
      else
        let n5 := if n4.nodeSwitchEnabled = true then
            { n4 with nodeSwitch := true } else n4
        (n5,
          [NodeAction.startHubConnector] ++
            (if n5.hubFunctionEnabled = true then
              [NodeAction.startHubFunction] else []) ++
            (if n5.nodeSwitchEnabled = true then
              [NodeAction.startNodeSwitch] else []), BscRet.SUCCESS)

/-- `bsc_node_process_stop_event` (source lines 119-164): test the
all-stopped conjunction; in STOPPING emit STOPPED and fall to IDLE once it
holds, in RESTARTING re-run the start sequence once it holds. -/
def bsc_node_process_stop_event (o : StartOracle) (s : SubStatus)
    (n : NodeState) : NodeState × List NodeAction :=
  let stopped := allStopped n s
  if n.state = BscNodeState.STOPPING then
    if stopped = true then
      ({ n with state := BscNodeState.IDLE }, [NodeAction.emit NodeEvent.STOPPED])
    else
      (n, [])
  else if n.state = BscNodeState.RESTARTING then
    if stopped = true then
      let r := bsc_node_start_state o BscNodeState.RESTARTING n
      (r.1, r.2.1)
    else
      (n, [])
  else
    (n, [])

/-- `bsc_node_process_start_event` (source lines 166-193): once the
started conjunction holds, STARTING advances to STARTED emitting STARTED,
and RESTARTING advances to STARTED emitting RESTARTED. -/
def bsc_node_process_start_event (s : SubStatus) (n : NodeState) :
    NodeState × List NodeAction :=
  if allStarted n s = true then
    if n.state = BscNodeState.STARTING then
      ({ n with state := BscNodeState.STARTED }, [NodeAction.emit NodeEvent.STARTED])
    else if n.state = BscNodeState.RESTARTING then
      ({ n with state := BscNodeState.STARTED }, [NodeAction.emit NodeEvent.RESTARTED])
    else
      (n, [])
  else
    (n, [])

/-- `bsc_node_restart` (source lines 195-209): enter RESTARTING and
request stop on the hub connector, on the hub function when present and
enabled, and on the node switch when enabled. -/
def bsc_node_restart (n : NodeState) : NodeState × List NodeAction :=
  let n1 := { n with state := BscNodeState.RESTARTING }
  (n1,
    [NodeAction.stopHubConnector] ++
      (if n1.hubFunction = true ∧ n1.hubFunctionEnabled = true then
        [NodeAction.stopHubFunction] else []) ++
      (if n1.nodeSwitchEnabled = true then
        [NodeAction.stopNodeSwitch] else []))

/-- BVLC-SC message functions handled by `bsc_node_process_received`. -/
inductive BvlcFunction
  | RESULT
  | ADVERTISIMENT
  | ADVERTISIMENT_SOLICITATION
  | ADDRESS_RESOLUTION
  | ADDRESS_RESOLUTION_ACK
  | ENCAPSULATED_NPDU
  deriving DecidableEq, Repr

/-- A destination header option of a decoded BVLC-SC PDU: the
must-understand flag and the packed header marker used in NAK replies. -/
structure DestOption where
  must_understand : Bool
  packed_header_marker : Nat
  deriving DecidableEq, Repr

/-- The pre-decoded header and payload fields of a received BVLC-SC PDU
(`BVLC_SC_DECODED_MESSAGE`), as consumed by `bsc_node_process_received`.
`needResult` is the value of `bvlc_sc_need_send_bvlc_result` for this PDU
(modelled from the spec: that decoder helper is outside the sources under
study; per the specification it tells whether the originator expects a
result).  `result_bvlc_function` is `payload.result.bvlc_function`, and
`ack_payload` is the ACK's `utf8_websocket_uri_string` as bytes. -/
structure DecodedPdu where
  bvlc_function : BvlcFunction
  message_id : Nat
  origin : List Nat
  dest_options : List DestOption
  needResult : Bool
  result_bvlc_function : BvlcFunction
  ack_payload : List Nat
  deriving DecidableEq, Repr

/-- First destination option flagged must-understand, if any; the C loop
reacts at the first such option. -/
def firstMustUnderstand : List DestOption → Option DestOption
  | [] => none
  | o :: rest =>
    if o.must_understand = true then some o else firstMustUnderstand rest

/-- Index of the first used table entry whose VMAC matches
(`node_get_address_resolution`, source lines 84-97). -/
def node_get_address_resolution : List ResolutionEntry → List Nat → Option Nat
  | [], _ => none
  | e :: rest, v =>
    if e.used = true ∧ e.vmac = v then some 0
    else (node_get_address_resolution rest v).map (· + 1)

/-- Index of the first unused entry, which gets claimed for the VMAC
(`node_alloc_address_resolution`, source lines 99-112); `none` when the
table is full. -/
def node_alloc_address_resolution (t : List ResolutionEntry) (v : List Nat) :
    Option (Nat × List ResolutionEntry) :=
  match t with
  | [] => none
  | e :: rest =>
    if e.used = false then
      some (0, { e with used := true, vmac := v } :: rest)
    else
      (node_alloc_address_resolution rest v).map
        (fun r => (r.1 + 1, e :: r.2))

/-- Modelled from the spec: the compile-time per-URL size cap
`BSC_CONF_NODE_MAX_URI_SIZE_IN_ADDRESS_RESOLUTION_ACK`; its defining
header is not among the sources under study, so a representative value is
fixed here (the claims do not depend on the exact value). -/
def BSC_CONF_NODE_MAX_URI_SIZE : Nat := 64

/-- The URL copy performed by the ACK loop: bytes `[start, stop)` of the
payload. -/
def ackSlice (payload : List Nat) (start stop : Nat) : List Nat :=
  (payload.drop start).take (stop - start)

/-- One iteration of the ACK-payload loop of `bsc_node_process_received`
(source lines 361-380), translated verbatim: the loop compares the loop
INDEX `i` against the literal 0x20 (`if (i == 0x20)`), not the byte at
position `i`, and the cap check compares `i` against the per-URL cap.
The carried pair is `(start, acc)`; an index other than 0x20 changes
nothing. -/
def ack_loop_step (cap : Nat) (payload : List Nat)
    (st : Nat × List (List Nat)) (i : Nat) : Nat × List (List Nat) :=
  if i = 0x20 then
    if i > cap ∨ i - st.1 = 0 then
      (i + 1, st.2)
    else
      (i + 1, st.2 ++ [ackSlice payload st.1 i])
  else
    st

/-- The complete ACK-payload parse of the source: the loop over indices
`0 ≤ i < len`, then the trailing copy after the loop (source lines
381-389), where `i` has the final value `len`. -/
def ack_parse_code (cap : Nat) (payload : List Nat) : List (List Nat) :=
  let len := payload.length
  let r := (List.range len).foldl (ack_loop_step cap payload) (0, [])
  if len - r.1 > 0 ∧ len ≤ cap then
    r.2 ++ [ackSlice payload r.1 len]
  else
    r.2

/-- Modelled from the spec: the intended ACK-payload parse — split the
payload on the space byte 0x20, discard empty separators and any URL
longer than the per-URL cap, and keep at most `maxUrls` of them. -/
def ack_parse_intended (maxUrls cap : Nat) (payload : List Nat) :
    List (List Nat) :=
  ((payload.splitOn 0x20).filter
    (fun u => u ≠ [] ∧ u.length ≤ cap)).take maxUrls

/-- Replace the entry at an index of the resolution table. -/
def setEntry (t : List ResolutionEntry) (i : Nat) (e : ResolutionEntry) :
    List ResolutionEntry :=
  t.set i e

/-- Read the entry at an index (the table indices produced by the lookup
and allocation functions are always in range). -/
def getEntry (t : List ResolutionEntry) (i : Nat) : ResolutionEntry :=
  t.getD i (ResolutionEntry.mk false [] [] false)

/-- `bsc_node_process_received` (source lines 211-403).  `encodeOk` is
whether the external BVLC-SC encoder produced a nonzero `bufsize` (a zero
size silently drops the response); `sendRet` is the result of the
`bsc_node_send` call, which the code logs and otherwise ignores.  Returns
the updated node state and the list of externally visible effects. -/
def bsc_node_process_received (encodeOk : Bool) (n : NodeState)
    (pdu : List Nat) (p : DecodedPdu) : NodeState × List NodeAction :=
  match firstMustUnderstand p.dest_options, p.needResult with
  | some opt, true =>
    (n, if encodeOk = true then
      [NodeAction.send (SentMsg.resultNak ErrCode.HEADER_NOT_UNDERSTOOD
        (some opt.packed_header_marker))]
    else [])
  | _, _ =>
    match p.bvlc_function with
    | BvlcFunction.RESULT =>
      if p.result_bvlc_function = BvlcFunction.ADDRESS_RESOLUTION then
        match node_get_address_resolution n.resolution p.origin with
        | some i =>
          let e0 := getEntry n.resolution i
          let e := ResolutionEntry.mk e0.used e0.vmac [] false
          ({ n with resolution := setEntry n.resolution i e }, [])
        | none =>
          match node_alloc_address_resolution n.resolution p.origin with
          | some (i, t) =>
            let e0 := getEntry t i
            let e := ResolutionEntry.mk e0.used e0.vmac [] false
            ({ n with resolution := setEntry t i e }, [])
          | none => (n, [])
      else
        (n, [])
    | BvlcFunction.ADVERTISIMENT => (n, [])
    | BvlcFunction.ADVERTISIMENT_SOLICITATION =>
      (n, if encodeOk = true then [NodeAction.send SentMsg.advertisement] else [])
    | BvlcFunction.ADDRESS_RESOLUTION =>
      if n.nodeSwitchEnabled = true then
        (n, if encodeOk = true then
          [NodeAction.send SentMsg.addressResolutionAck] else [])
      else
        (n, if encodeOk = true then
          [NodeAction.send (SentMsg.resultNak
            ErrCode.OPTIONAL_FUNCTIONALITY_NOT_SUPPORTED none)] else [])
    | BvlcFunction.ADDRESS_RESOLUTION_ACK =>
      let found :=
        match node_get_address_resolution n.resolution p.origin with
        | some i => some (i, n.resolution)
        | none => node_alloc_address_resolution n.resolution p.origin
      match found with
      | some (i, t) =>
        let e0 := getEntry t i
        let e := ResolutionEntry.mk e0.used e0.vmac
          (ack_parse_code BSC_CONF_NODE_MAX_URI_SIZE p.ack_payload) false
        ({ n with resolution := setEntry t i e }, [NodeAction.procAddrRes i])
      | none => (n, [])
    | BvlcFunction.ENCAPSULATED_NPDU =>
      (n, [NodeAction.emit (NodeEvent.RECEIVED pdu)])

/-- The sub-component a node-level input originates from. -/
inductive SubSource
  | hubc
  | hubf
  | nsw
  deriving DecidableEq, Repr

/-- Inputs to the node aggregate, as delivered by the three sub-component
event callbacks (`bsc_hub_connector_event`, `bsc_hub_function_event`,
`bsc_node_switch_event`). -/
inductive NodeInput
  | started (src : SubSource)
  | stopped (src : SubSource)
  | dupVmac (src : SubSource)
  | received (src : SubSource) (pdu : List Nat) (p : DecodedPdu)
  deriving DecidableEq, Repr

/-- Per-step oracle bundle: the polled sub-component statuses, the start
results used if a restart fires, and the encoder outcome for responses. -/
structure NodeOracle where
  sub : SubStatus
  start : StartOracle
  encodeOk : Bool
  deriving DecidableEq, Repr

/-- Clear the handle the STOPPED event came from, as the three callbacks
do before calling `bsc_node_process_stop_event`. -/
def clearHandle (src : SubSource) (n : NodeState) : NodeState :=
  match src with
  | SubSource.hubc => { n with hubConnector := false }
  | SubSource.hubf => { n with hubFunction := false }
  | SubSource.nsw => { n with nodeSwitch := false }

/-- The node aggregate's reaction to one sub-component event, combining
the three event callbacks of `bsc-node.c`: STARTED events (from the hub
function and the node switch only) run the start predicate, STOPPED events
clear the handle and run the stop predicate, duplicate-VMAC events trigger
the restart unless the node is STOPPING or already RESTARTING, and
RECEIVED events (from the hub connector and the node switch) run the
control-PDU handler. -/
def bsc_node_step (o : NodeOracle) (n : NodeState) :
    NodeInput → NodeState × List NodeAction
  | NodeInput.started src =>
    match src with
    | SubSource.hubc => (n, [])
    | _ => bsc_node_process_start_event o.sub n
  | NodeInput.stopped src =>
    bsc_node_process_stop_event o.start o.sub (clearHandle src n)
  | NodeInput.dupVmac _ =>
    if n.state ≠ BscNodeState.STOPPING ∧ n.state ≠ BscNodeState.RESTARTING then
      bsc_node_restart n
    else
      (n, [])
  | NodeInput.received src pdu p =>
    match src with
    | SubSource.hubf => (n, [])
    | _ => bsc_node_process_received o.encodeOk n pdu p

/-- `bsc_node_get_address_resolution` (source lines 735-760), the public
lookup: under the lock, reject unless the node is STARTED and the VMAC
pointer is non-null, then return the first used matching entry provided
its freshness timer has not expired.  The C function performs no writes;
the returned state is the input state unchanged, mirroring that. -/
def bsc_node_get_core (t : List ResolutionEntry) (v : List Nat) :
    Option ResolutionEntry :=
  match node_get_address_resolution t v with
  | some i =>
    if (getEntry t i).freshExpired = false then some (getEntry t i) else none
  | none => none

/-- The full public lookup including the null-pointer and node-state
guards of the source. -/
def bsc_node_get_address_resolution (n : NodeState) (vmac : Option (List Nat)) :
    NodeState × Option ResolutionEntry :=
  match vmac with
  | none => (n, none)
  | some v =>
    if n.state ≠ BscNodeState.STARTED then
      (n, none)
    else
      (n, bsc_node_get_core n.resolution v)

/-- Whether a fresh (unexpired) entry is recorded for a VMAC — the
specification's wording of the lookup's success condition. -/
def recordedFresh (t : List ResolutionEntry) (v : List Nat) : Bool :=
  t.any (fun e => e.used && e.vmac = v && !e.freshExpired)

/-- `bsc_node_send` (source lines 700-732) as a transformer of the
recursive-mutex hold count; every return path of this function restores
the count (`node` is `none` for a null pointer, rejected before locking).
`sendRet` is the sub-component send result. -/
def bsc_node_sendCount (node : Option NodeState) (sendRet : BscRet)
    (lock : Nat) : Nat × BscRet :=
  match node with
  | none => (lock, BscRet.BAD_PARAM)
  | some n =>
    let l1 := lock + 1
    if n.state ≠ BscNodeState.STARTED then
      (l1 - 1, BscRet.INVALID_OPERATION)
    else
      (l1 - 1, sendRet)

/-- Single retry cycle with both hubs unreachable: a disconnect while
connecting to primary, a disconnect while connecting to failover, and a
runloop tick with the reconnect timer expired. -/
def bothDownCycle (e1 e2 : BscRet) : List HubInput :=
  [HubInput.sock (SocketEvent.disconnected e1),
    HubInput.sock (SocketEvent.disconnected e2),
    HubInput.tick true]

/-- The lookup at the heart of `bsc_node_get_address_resolution`: first
used entry matching the VMAC, delivered only when its freshness timer has
not expired (the loop returns NULL immediately on an expired match). -/
def lookupFresh : List ResolutionEntry → List Nat → Option ResolutionEntry
  | [], _ => none
  | e :: rest, v =>
    if e.used = true ∧ e.vmac = v then
      (if e.freshExpired = false then some e else none)
    else
      lookupFresh rest v

/-- No two used entries of the table carry the same VMAC — the invariant
maintained by allocating an entry only when the lookup found none. -/
def vmacUnique (t : List ResolutionEntry) : Prop :=
  t.Pairwise (fun a b => a.used = true → b.used = true → a.vmac ≠ b.vmac)

/-- The scenario S4 payload `"wss://a  wss://bbb"` as UTF-8 bytes: two
URLs separated by a double space. -/
def payloadS4 : List Nat :=
  [119, 115, 115, 58, 47, 47, 97, 32, 32,
    119, 115, 115, 58, 47, 47, 98, 98, 98]

/-- `"wss://a"` as bytes. -/
def urlS4a : List Nat := [119, 115, 115, 58, 47, 47, 97]

/-- `"wss://bbb"` as bytes. -/
def urlS4b : List Nat := [119, 115, 115, 58, 47, 47, 98, 98, 98]

/-- A concrete fully-enabled started node used to witness the restart
protocol. -/
def nodeC1 : NodeState :=
  NodeState.mk BscNodeState.STARTED [1] true true true true true []

/-- Oracle for the duplicate-VMAC step of the restart witness. -/
def oracleC1a : NodeOracle :=
  NodeOracle.mk (SubStatus.mk false false false false false false)
    (StartOracle.mk BscRet.SUCCESS BscRet.SUCCESS BscRet.SUCCESS [2]) true

/-- Oracle for the all-stopped step of the restart witness: every
sub-component reports stopped and the regenerated VMAC is `[2]`. -/
def oracleC1b : NodeOracle :=
  NodeOracle.mk (SubStatus.mk true true true false false false)
    (StartOracle.mk BscRet.SUCCESS BscRet.SUCCESS BscRet.SUCCESS [2]) true

/-- Oracle for the all-started step of the restart witness: every
sub-component reports started. -/
def oracleC1c : NodeOracle :=
  NodeOracle.mk (SubStatus.mk false false false true true true)
    (StartOracle.mk BscRet.SUCCESS BscRet.SUCCESS BscRet.SUCCESS [2]) true

/-- C8: when the socket context reports DEINITIALIZED while the hub
connector is started, the connector transitions to IDLE and emits exactly
one STOPPED event whose cause is the latched error if the state at that
moment was ERROR, and success otherwise. -/
theorem C8_stopped_carries_latched_error (h : HubConnector)
    (hst : h.started = true) :
    hub_connector_context_event h CtxEvent.DEINITIALIZED =
      ({ h with started := false, state := HubConnState.IDLE },
        [HubAction.emit HubEvent.STOPPED
          (if h.state = HubConnState.ERROR then h.error else BscRet.SUCCESS) []]) ∧
    (hub_connector_context_event h CtxEvent.DEINITIALIZED).2.length = 1 := by
  constructor
  · by_cases he : h.state = HubConnState.ERROR <;>
      simp [hub_connector_context_event, hst, he]
  · by_cases he : h.state = HubConnState.ERROR <;>
      simp [hub_connector_context_event, hst, he]

/-- C8 witness: a concrete started connector whose latched state is ERROR
with a latched duplicate-VMAC error. -/
theorem C8_stopped_carries_latched_error_witness :
    hub_connector_context_event
        (HubConnector.mk HubConnState.ERROR true 5 0 [] [] BscRet.DUPLICATED_VMAC)
        CtxEvent.DEINITIALIZED =
      ({ HubConnector.mk HubConnState.ERROR true 5 0 [] [] BscRet.DUPLICATED_VMAC
          with started := false, state := HubConnState.IDLE },
        [HubAction.emit HubEvent.STOPPED
          (if (HubConnector.mk HubConnState.ERROR true 5 0 [] []
                BscRet.DUPLICATED_VMAC).state = HubConnState.ERROR then
            (HubConnector.mk HubConnState.ERROR true 5 0 [] []
              BscRet.DUPLICATED_VMAC).error
          else BscRet.SUCCESS) []]) :=
  (C8_stopped_carries_latched_error
    (HubConnector.mk HubConnState.ERROR true 5 0 [] [] BscRet.DUPLICATED_VMAC)
    rfl).1

/-- C10: `bsc_hub_connector_stop` is a no-op when the connector is not
started or already waiting for context deinit, and stopping twice has the
same effect as stopping once. -/
theorem C10_stop_idempotent :
    (∀ h : HubConnector, h.started = false →
      bsc_hub_connector_stop h = (h, [])) ∧
    (∀ h : HubConnector, h.state = HubConnState.WAIT_FOR_CTX_DEINIT →
      bsc_hub_connector_stop h = (h, [])) ∧
    (∀ h : HubConnector,
      bsc_hub_connector_stop (bsc_hub_connector_stop h).1 =
        ((bsc_hub_connector_stop h).1, [])) := by
  refine ⟨?_, ?_, ?_⟩
  · intro h hs
    simp [bsc_hub_connector_stop, hs]
  · intro h hs
    simp [bsc_hub_connector_stop, hs]
  · intro h
    by_cases hc : h.started = true ∧ h.state ≠ HubConnState.WAIT_FOR_CTX_DEINIT
    · simp [bsc_hub_connector_stop, hc]
    · simp [bsc_hub_connector_stop, hc]

/-- C10 witness: the no-op cases at concrete connectors (one not started,
one already waiting for context deinit). -/
theorem C10_stop_idempotent_witness :
    bsc_hub_connector_stop
        (HubConnector.mk HubConnState.CONNECTED_PRIMARY false 5 0 [] []
          BscRet.SUCCESS) =
      ((HubConnector.mk HubConnState.CONNECTED_PRIMARY false 5 0 [] []
          BscRet.SUCCESS), []) ∧
    bsc_hub_connector_stop
        (HubConnector.mk HubConnState.WAIT_FOR_CTX_DEINIT true 5 0 [] []
          BscRet.SUCCESS) =
      ((HubConnector.mk HubConnState.WAIT_FOR_CTX_DEINIT true 5 0 [] []
          BscRet.SUCCESS), []) :=
  ⟨C10_stop_idempotent.1 _ rfl, C10_stop_idempotent.2.1 _ rfl⟩

/-- C6 (code bug): `bsc_node_send` restores the recursive-mutex hold count
on every return path, but the `INVALID_OPERATION` path of
`bsc_hub_connector_send` returns with the hold count one above the count
at entry — the lock taken on entry is never released there. -/
theorem C6_mutex_balance_violation :
    (∀ (node : Option NodeState) (r : BscRet) (lock : Nat),
      (bsc_node_sendCount node r lock).1 = lock) ∧
    (bsc_hub_connector_sendCount
        (HubConnector.mk HubConnState.IDLE false 0 0 [] [] BscRet.SUCCESS)
        BscRet.SUCCESS 0 =
      (1, BscRet.INVALID_OPERATION)) ∧ (1 : Nat) ≠ 0 := by
  refine ⟨?_, by decide, by decide⟩
  intro node r lock
  match node with
  | none => rfl
  | some n =>
    by_cases hs : n.state = BscNodeState.STARTED <;>
      simp [bsc_node_sendCount, hs]

/-- C9 (amended): `bsc_hub_connector_start` returns BAD_PARAM without
changing state for null pointers, zero numerics or oversize URLs (but an
EMPTY URL is not rejected — see the counterexample), INVALID_OPERATION
when already started; otherwise it copies the configuration, registers
with the runloop, initializes the context, connects to primary and enters
CONNECTING-PRIMARY, and on a connect failure after context init it
unregisters and deinits before returning the error. -/
theorem C9_hub_connector_start_validation :
    (∀ (maxUrlLen : Nat) (regRet ctxRet connRet : BscRet)
        (h : HubConnector) (a : HubStartArgs),
      hubStartNullZero a = true ∨ hubStartUrlTooLong maxUrlLen a = true →
      bsc_hub_connector_start maxUrlLen regRet ctxRet connRet h a =
        (h, [], BscRet.BAD_PARAM)) ∧
    (∀ (maxUrlLen : Nat) (regRet ctxRet connRet : BscRet)
        (h : HubConnector) (a : HubStartArgs),
      hubStartNullZero a = false → hubStartUrlTooLong maxUrlLen a = false →
      h.started = true →
      bsc_hub_connector_start maxUrlLen regRet ctxRet connRet h a =
        (h, [], BscRet.INVALID_OPERATION)) ∧
    (∀ (maxUrlLen : Nat) (h : HubConnector) (a : HubStartArgs),
      hubStartNullZero a = false → hubStartUrlTooLong maxUrlLen a = false →
      h.started = false →
      bsc_hub_connector_start maxUrlLen BscRet.SUCCESS BscRet.SUCCESS
          BscRet.SUCCESS h a =
        ({ h with reconnect_timeout_s := a.reconnect_timeout_s,
                  primaryUrl := a.primaryURL.getD [],
                  failoverUrl := a.failoverURL.getD [],
                  state := HubConnState.CONNECTING_PRIMARY,
                  started := true },
          [HubAction.runloopReg, HubAction.ctxInit,
            HubAction.connect HubConnType.PRIMARY []], BscRet.SUCCESS)) ∧
    (∀ (maxUrlLen : Nat) (connRet : BscRet) (h : HubConnector)
        (a : HubStartArgs),
      hubStartNullZero a = false → hubStartUrlTooLong maxUrlLen a = false →
      h.started = false → connRet ≠ BscRet.SUCCESS →
      bsc_hub_connector_start maxUrlLen BscRet.SUCCESS BscRet.SUCCESS
          connRet h a =
        ({ h with reconnect_timeout_s := a.reconnect_timeout_s,
                  primaryUrl := a.primaryURL.getD [],
                  failoverUrl := a.failoverURL.getD [],
                  state := HubConnState.IDLE },
          [HubAction.runloopReg, HubAction.ctxInit,
            HubAction.connect HubConnType.PRIMARY [],
            HubAction.runloopUnreg, HubAction.ctxDeinit], connRet)) := by
  refine ⟨?_, ?_, ?_, ?_⟩
  · intro maxUrlLen regRet ctxRet connRet h a hv
    rcases hv with hv | hv
    · simp [bsc_hub_connector_start, hv]
    · by_cases h0 : hubStartNullZero a = true <;>
        simp [bsc_hub_connector_start, h0, hv]
  · intro maxUrlLen regRet ctxRet connRet h a h1 h2 h3
    simp [bsc_hub_connector_start, h1, h2, h3]
  · intro maxUrlLen h a h1 h2 h3
    simp [bsc_hub_connector_start, h1, h2, h3]
  · intro maxUrlLen connRet h a h1 h2 h3 h4
    simp [bsc_hub_connector_start, h1, h2, h3, h4]

/-- C9 witness: concrete valid arguments against a concrete idle connector,
exercising the BAD_PARAM branch (zero connect timeout) and the successful
start branch. -/
theorem C9_hub_connector_start_validation_witness :
    bsc_hub_connector_start 70 BscRet.SUCCESS BscRet.SUCCESS BscRet.SUCCESS
        (HubConnector.mk HubConnState.IDLE false 0 0 [] [] BscRet.SUCCESS)
        (HubStartArgs.mk true 1 true 1 true 1 true true 1 1 0 1 1
          (some [119]) (some [120]) 1 true) =
      ((HubConnector.mk HubConnState.IDLE false 0 0 [] [] BscRet.SUCCESS),
        [], BscRet.BAD_PARAM) ∧
    bsc_hub_connector_start 70 BscRet.SUCCESS BscRet.SUCCESS BscRet.SUCCESS
        (HubConnector.mk HubConnState.IDLE false 0 0 [] [] BscRet.SUCCESS)
        (HubStartArgs.mk true 1 true 1 true 1 true true 1 1 1 1 1
          (some [119]) (some [120]) 7 true) =
      ({ HubConnector.mk HubConnState.IDLE false 0 0 [] [] BscRet.SUCCESS with
          reconnect_timeout_s :=
            (HubStartArgs.mk true 1 true 1 true 1 true true 1 1 1 1 1
              (some [119]) (some [120]) 7 true).reconnect_timeout_s,
          primaryUrl :=
            ((HubStartArgs.mk true 1 true 1 true 1 true true 1 1 1 1 1
              (some [119]) (some [120]) 7 true).primaryURL).getD [],
          failoverUrl :=
            ((HubStartArgs.mk true 1 true 1 true 1 true true 1 1 1 1 1
              (some [119]) (some [120]) 7 true).failoverURL).getD [],
          state := HubConnState.CONNECTING_PRIMARY,
          started := true },
        [HubAction.runloopReg, HubAction.ctxInit,
          HubAction.connect HubConnType.PRIMARY []], BscRet.SUCCESS) :=
  ⟨C9_hub_connector_start_validation.1 70 BscRet.SUCCESS BscRet.SUCCESS
      BscRet.SUCCESS _ _ (Or.inl (by decide)),
    C9_hub_connector_start_validation.2.2.1 70 _ _ (by decide) (by decide) rfl⟩

/-- C9 counterexample: an empty primary URL (a non-null pointer to a
zero-length string) passes validation — the start call proceeds and
returns success rather than the BAD_PARAM the claim requires. -/
theorem C9_empty_url_not_rejected :
    (bsc_hub_connector_start 70 BscRet.SUCCESS BscRet.SUCCESS BscRet.SUCCESS
        (HubConnector.mk HubConnState.IDLE false 0 0 [] [] BscRet.SUCCESS)
        (HubStartArgs.mk true 1 true 1 true 1 true true 1 1 1 1 1
          (some []) (some [120]) 7 true)).2.2 = BscRet.SUCCESS ∧
    (HubStartArgs.mk true 1 true 1 true 1 true true 1 1 1 1 1
        (some []) (some [120]) 7 true).primaryURL = some [] ∧
    BscRet.SUCCESS ≠ BscRet.BAD_PARAM := by
  refine ⟨by decide, by decide, by decide⟩

/-- One both-hubs-unreachable cycle returns the connector to
CONNECTING-PRIMARY. -/
theorem hub_cycle_returns (h : HubConnector) (e1 e2 : BscRet)
    (h1 : e1 ≠ BscRet.DUPLICATED_VMAC) (h2 : e2 ≠ BscRet.DUPLICATED_VMAC)
    (hs : h.state = HubConnState.CONNECTING_PRIMARY) :
    (hubRunState BscRet.SUCCESS h (bothDownCycle e1 e2)).state =
      HubConnState.CONNECTING_PRIMARY := by
  simp [bothDownCycle, hubRunState, hubStepState, hubStep,
    hub_connector_socket_event, hub_connector_connect_or_stop,
    hub_connector_process_state, h1, h2, hs]

/-- C2: the hub-connector failover and reconnect transitions, and the
indefinite primary → failover → wait cycle when both hubs are unreachable
(`connRet = SUCCESS` throughout: each connect attempt starts and fails
only later, by a DISCONNECTED socket event). -/
theorem C2_hub_connector_failover_transitions :
    (∀ (h : HubConnector) (e : BscRet), e ≠ BscRet.DUPLICATED_VMAC →
      h.state = HubConnState.CONNECTING_PRIMARY →
      hubStep BscRet.SUCCESS h (HubInput.sock (SocketEvent.disconnected e)) =
        ({ h with state := HubConnState.CONNECTING_FAILOVER },
          [HubAction.connect HubConnType.FAILOVER []])) ∧
    (∀ (h : HubConnector) (e : BscRet), e ≠ BscRet.DUPLICATED_VMAC →
      h.state = HubConnState.CONNECTING_FAILOVER →
      hubStep BscRet.SUCCESS h (HubInput.sock (SocketEvent.disconnected e)) =
        ({ h with state := HubConnState.WAIT_FOR_RECONNECT,
                  timerMs := h.reconnect_timeout_s * 1000 },
          [HubAction.armTimer (h.reconnect_timeout_s * 1000)])) ∧
    (∀ h : HubConnector, h.state = HubConnState.WAIT_FOR_RECONNECT →
      hubStep BscRet.SUCCESS h (HubInput.tick true) =
        ({ h with state := HubConnState.CONNECTING_PRIMARY },
          [HubAction.connect HubConnType.PRIMARY []])) ∧
    (∀ (h : HubConnector) (e : BscRet), e ≠ BscRet.DUPLICATED_VMAC →
      h.state = HubConnState.CONNECTED_PRIMARY ∨
        h.state = HubConnState.CONNECTED_FAILOVER →
      hubStep BscRet.SUCCESS h (HubInput.sock (SocketEvent.disconnected e)) =
        ({ h with state := HubConnState.CONNECTING_PRIMARY },
          [HubAction.emit HubEvent.DISCONNECTED e [],
            HubAction.connect HubConnType.PRIMARY []])) ∧
    (∀ (h : HubConnector) (e1 e2 : BscRet) (k : Nat),
      e1 ≠ BscRet.DUPLICATED_VMAC → e2 ≠ BscRet.DUPLICATED_VMAC →
      h.state = HubConnState.CONNECTING_PRIMARY →
      (hubRunState BscRet.SUCCESS h
          (List.flatten (List.replicate k (bothDownCycle e1 e2)))).state =
        HubConnState.CONNECTING_PRIMARY) := by
  refine ⟨?_, ?_, ?_, ?_, ?_⟩
  · intro h e he hs
    simp [hubStep, hub_connector_socket_event, hub_connector_connect_or_stop,
      he, hs]
  · intro h e he hs
    simp [hubStep, hub_connector_socket_event, he, hs]
  · intro h hs
    simp [hubStep, hub_connector_process_state,
      hub_connector_connect_or_stop, hs]
  · intro h e he hs
    rcases hs with hs | hs <;>
      simp [hubStep, hub_connector_socket_event,
        hub_connector_connect_or_stop, he, hs]
  · intro h e1 e2 k he1 he2
    induction k generalizing h with
    | zero => intro hs; simpa [hubRunState] using hs
    | succ m ih =>
      intro hs
      rw [List.replicate_succ, List.flatten_cons]
      rw [hubRunState, List.foldl_append]
      exact ih _ (hub_cycle_returns h e1 e2 he1 he2 hs)

/-- C2 witness: a concrete connecting-to-primary connector driven through
the transitions and through three full both-down cycles. -/
theorem C2_hub_connector_failover_transitions_witness :
    hubStep BscRet.SUCCESS
        (HubConnector.mk HubConnState.CONNECTING_PRIMARY true 5 0 [] []
          BscRet.SUCCESS)
        (HubInput.sock (SocketEvent.disconnected BscRet.OTHER_ERROR)) =
      ({ HubConnector.mk HubConnState.CONNECTING_PRIMARY true 5 0 [] []
          BscRet.SUCCESS with state := HubConnState.CONNECTING_FAILOVER },
        [HubAction.connect HubConnType.FAILOVER []]) ∧
    (hubRunState BscRet.SUCCESS
        (HubConnector.mk HubConnState.CONNECTING_PRIMARY true 5 0 [] []
          BscRet.SUCCESS)
        (List.flatten (List.replicate 3
          (bothDownCycle BscRet.OTHER_ERROR BscRet.OTHER_ERROR)))).state =
      HubConnState.CONNECTING_PRIMARY :=
  ⟨C2_hub_connector_failover_transitions.1 _ _ (by decide) rfl,
    C2_hub_connector_failover_transitions.2.2.2.2 _ _ _ 3 (by decide)
      (by decide) rfl⟩

/-- C5 (amended): the code's all-stopped conjunction coincides with the
specification's all-stopped conjunction, and the node emits STOPPED (in
STOPPING) exactly when it holds and STARTED (in STARTING) exactly when the
code's started conjunction holds — but the code's started conjunction
consults only the hub function and the node switch, never the hub
connector (see the counterexample). -/
theorem C5_aggregate_predicates :
    (∀ (n : NodeState) (s : SubStatus),
      allStopped n s = allStoppedClaim n s) ∧
    (∀ (o : StartOracle) (s : SubStatus) (n : NodeState),
      n.state = BscNodeState.STOPPING →
      (bsc_node_process_stop_event o s n).2 =
        if allStopped n s = true then [NodeAction.emit NodeEvent.STOPPED]
        else []) ∧
    (∀ (s : SubStatus) (n : NodeState),
      n.state = BscNodeState.STARTING →
      (bsc_node_process_start_event s n).2 =
        if allStarted n s = true then [NodeAction.emit NodeEvent.STARTED]
        else []) := by
  refine ⟨?_, ?_, ?_⟩
  · intro n s
    obtain ⟨_, _, hc, hf, ns, hfe, nse, _⟩ := n
    obtain ⟨shc, shf, sns, _, _, _⟩ := s
    simp only [allStopped, allStoppedClaim]
    cases hc <;> cases hf <;> cases ns <;> cases hfe <;> cases nse <;>
      cases shc <;> cases shf <;> cases sns <;> rfl
  · intro o s n hs
    by_cases hall : allStopped n s = true <;>
      simp [bsc_node_process_stop_event, hs, hall]
  · intro s n hs
    by_cases hall : allStarted n s = true <;>
      simp [bsc_node_process_start_event, hs, hall]

/-- C5 witness: the predicate agreement and the STOPPED emission at a
concrete stopping node whose sub-components all report stopped. -/
theorem C5_aggregate_predicates_witness :
    allStopped
        (NodeState.mk BscNodeState.STOPPING [] true true true true true [])
        (SubStatus.mk true true true false false false) =
      allStoppedClaim
        (NodeState.mk BscNodeState.STOPPING [] true true true true true [])
        (SubStatus.mk true true true false false false) ∧
    (bsc_node_process_stop_event
        (StartOracle.mk BscRet.SUCCESS BscRet.SUCCESS BscRet.SUCCESS [])
        (SubStatus.mk true true true false false false)
        (NodeState.mk BscNodeState.STOPPING [] true true true true true [])).2 =
      (if allStopped
          (NodeState.mk BscNodeState.STOPPING [] true true true true true [])
          (SubStatus.mk true true true false false false) = true then
        [NodeAction.emit NodeEvent.STOPPED]
      else []) :=
  ⟨C5_aggregate_predicates.1 _ _, C5_aggregate_predicates.2.1 _ _ _ rfl⟩

/-- C5 counterexample: a starting node whose hub-connector handle is live
and NOT reporting started, while hub function and node switch report
started — the code's predicate holds and STARTED is emitted, yet the
specification's "analogous conjunction with started" is false. -/
theorem C5_started_ignores_hub_connector :
    allStarted
        (NodeState.mk BscNodeState.STARTING [] true true true true true [])
        (SubStatus.mk false false false false true true) = true ∧
    allStartedClaim
        (NodeState.mk BscNodeState.STARTING [] true true true true true [])
        (SubStatus.mk false false false false true true) = false ∧
    (bsc_node_process_start_event
        (SubStatus.mk false false false false true true)
        (NodeState.mk BscNodeState.STARTING [] true true true true true [])).2 =
      [NodeAction.emit NodeEvent.STARTED] := by
  refine ⟨by decide, by decide, by decide⟩

/-- The index-based loop of the public lookup computes the same optional
entry as the direct first-match recursion. -/
theorem bsc_node_get_core_eq_lookupFresh (t : List ResolutionEntry)
    (v : List Nat) : bsc_node_get_core t v = lookupFresh t v := by
  induction t with
  | nil => rfl
  | cons e rest ih =>
    by_cases hc : e.used = true ∧ e.vmac = v
    · simp [bsc_node_get_core, node_get_address_resolution, lookupFresh, hc,
        getEntry]
    · simp only [bsc_node_get_core, node_get_address_resolution, if_neg hc,
        lookupFresh]
      cases hm : node_get_address_resolution rest v with
      | none =>
        simp only [bsc_node_get_core, hm] at ih
        simpa using ih
      | some i =>
        simp only [bsc_node_get_core, hm] at ih
        simpa [getEntry] using ih

/-- Under VMAC uniqueness, the first-match lookup succeeds exactly when a
fresh entry is recorded for the VMAC. -/
theorem lookupFresh_isSome_eq_recordedFresh (t : List ResolutionEntry)
    (v : List Nat) (hu : vmacUnique t) :
    (lookupFresh t v).isSome = recordedFresh t v := by
  induction t with
  | nil => rfl
  | cons e rest ih =>
    rw [vmacUnique, List.pairwise_cons] at hu
    by_cases hc : e.used = true ∧ e.vmac = v
    · have hrest : recordedFresh rest v = false := by
        by_contra hne
        rw [Bool.not_eq_false, recordedFresh, List.any_eq_true] at hne
        obtain ⟨b, hb, hbp⟩ := hne
        simp only [Bool.and_eq_true, decide_eq_true_eq] at hbp
        exact (hu.1 b hb hc.1 hbp.1.1) (hc.2.trans hbp.1.2.symm)
      simp only [recordedFresh, List.any_cons] at hrest ⊢
      cases hf : e.freshExpired <;>
        simp [lookupFresh, hc, hc.1, hc.2, hf, hrest]
    · have hih := ih hu.2
      simp only [recordedFresh, List.any_cons] at hih ⊢
      have hhead : (e.used && decide (e.vmac = v) && !e.freshExpired) = false := by
        rcases Bool.eq_false_or_eq_true e.used with h1 | h1
        · have h2 : e.vmac ≠ v := fun hv => hc ⟨h1, hv⟩
          simp [h2]
        · simp [h1]
      simp [lookupFresh, hc, hhead, hih]

/-- C7 (amended): while the node is STARTED, the public lookup returns the
recorded entry for a VMAC exactly when one is recorded and its freshness
timer has not expired (under the table invariant that used entries have
distinct VMACs), and the lookup never mutates the node — in particular the
resolution table — regardless of the node state. -/
theorem C7_address_resolution_freshness :
    (∀ (n : NodeState) (v : List Nat), n.state = BscNodeState.STARTED →
      (bsc_node_get_address_resolution n (some v)).2 =
        lookupFresh n.resolution v) ∧
    (∀ (n : NodeState) (v : List Nat), n.state = BscNodeState.STARTED →
      vmacUnique n.resolution →
      ((bsc_node_get_address_resolution n (some v)).2).isSome =
        recordedFresh n.resolution v) ∧
    (∀ (n : NodeState) (vm : Option (List Nat)),
      (bsc_node_get_address_resolution n vm).1 = n) := by
  refine ⟨?_, ?_, ?_⟩
  · intro n v hs
    simp [bsc_node_get_address_resolution, hs,
      bsc_node_get_core_eq_lookupFresh]
  · intro n v hs hu
    simp [bsc_node_get_address_resolution, hs,
      bsc_node_get_core_eq_lookupFresh,
      lookupFresh_isSome_eq_recordedFresh _ _ hu]
  · intro n vm
    cases vm with
    | none => rfl
    | some v =>
      by_cases hs : n.state = BscNodeState.STARTED <;>
        simp [bsc_node_get_address_resolution, hs]

/-- C7 witness: a started node holding one fresh entry; the lookup for
that VMAC succeeds exactly as the recorded-and-fresh predicate says. -/
theorem C7_address_resolution_freshness_witness :
    ((bsc_node_get_address_resolution
        (NodeState.mk BscNodeState.STARTED [] true true true true true
          [ResolutionEntry.mk true [1, 2, 3, 4, 5, 6] [] false])
        (some [1, 2, 3, 4, 5, 6])).2).isSome =
      recordedFresh
        (NodeState.mk BscNodeState.STARTED [] true true true true true
          [ResolutionEntry.mk true [1, 2, 3, 4, 5, 6] [] false]).resolution
        [1, 2, 3, 4, 5, 6] :=
  C7_address_resolution_freshness.2.1 _ _ rfl (by simp [vmacUnique])

/-- C7 counterexample: the claim's biconditional fails without the node
state: in STOPPING, a recorded and fresh entry for the VMAC exists yet the
lookup returns none. -/
theorem C7_lookup_requires_started_state :
    (bsc_node_get_address_resolution
        (NodeState.mk BscNodeState.STOPPING [] true true true true true
          [ResolutionEntry.mk true [1, 2, 3, 4, 5, 6] [] false])
        (some [1, 2, 3, 4, 5, 6])).2 = none ∧
    recordedFresh
        (NodeState.mk BscNodeState.STOPPING [] true true true true true
          [ResolutionEntry.mk true [1, 2, 3, 4, 5, 6] [] false]).resolution
        [1, 2, 3, 4, 5, 6] = true := by
  refine ⟨by decide, by decide⟩

/-- C3 (amended): a received PDU carrying a must-understand destination
option is dropped with a HEADER_NOT_UNDERSTOOD NAK back to the origin
(carrying the first offending option's header marker) ONLY when the
originator expects a result; the node state is untouched and nothing else
is dispatched in that case.  When no result is expected the options cause
no drop — see the counterexample. -/
theorem C3_must_understand_nak :
    ∀ (encodeOk : Bool) (n : NodeState) (pdu : List Nat) (p : DecodedPdu)
      (opt : DestOption),
      firstMustUnderstand p.dest_options = some opt →
      p.needResult = true →
      bsc_node_process_received encodeOk n pdu p =
        (n, if encodeOk = true then
          [NodeAction.send (SentMsg.resultNak ErrCode.HEADER_NOT_UNDERSTOOD
            (some opt.packed_header_marker))]
        else []) := by
  intro encodeOk n pdu p opt hmu hnr
  simp [bsc_node_process_received, hmu, hnr]

/-- C3 witness: a must-understand option on a PDU expecting a result — the
node drops it and synthesizes exactly the NAK. -/
theorem C3_must_understand_nak_witness :
    bsc_node_process_received true
        (NodeState.mk BscNodeState.STARTED [] true true true true true [])
        [7]
        (DecodedPdu.mk BvlcFunction.ENCAPSULATED_NPDU 1 [9]
          [DestOption.mk true 42] true BvlcFunction.RESULT []) =
      ((NodeState.mk BscNodeState.STARTED [] true true true true true []),
        if true = true then
          [NodeAction.send (SentMsg.resultNak ErrCode.HEADER_NOT_UNDERSTOOD
            (some (DestOption.mk true 42).packed_header_marker))]
        else []) :=
  C3_must_understand_nak true _ [7] _ (DestOption.mk true 42) rfl rfl

/-- C3 counterexample: the same must-understand option on a PDU whose
originator does NOT expect a result — the code falls through to normal
dispatch and surfaces the encapsulated NPDU to the owner instead of
dropping it, refuting the claim that every such PDU is dropped. -/
theorem C3_must_understand_without_result_dispatched :
    bsc_node_process_received true
        (NodeState.mk BscNodeState.STARTED [] true true true true true [])
        [7]
        (DecodedPdu.mk BvlcFunction.ENCAPSULATED_NPDU 1 [9]
          [DestOption.mk true 42] false BvlcFunction.RESULT []) =
      ((NodeState.mk BscNodeState.STARTED [] true true true true true []),
        [NodeAction.emit (NodeEvent.RECEIVED [7])]) ∧
    (DecodedPdu.mk BvlcFunction.ENCAPSULATED_NPDU 1 [9]
        [DestOption.mk true 42] false BvlcFunction.RESULT
        []).dest_options.any (fun o => o.must_understand) = true := by
  refine ⟨by decide, by decide⟩

/-- C4 (code bug): on the S4 payload `"wss://a  wss://bbb"` the source's
ACK-payload loop — whose guard compares the loop index with the literal
0x20 instead of the byte at that index — stores exactly one URL equal to
the WHOLE payload, while the documented split-on-space semantics yields
the two URLs `"wss://a"` and `"wss://bbb"`; accordingly a full ACK
processing run records that single wrong URL in the resolution entry. -/
theorem C4_ack_parse_loop_index_bug :
    ack_parse_code BSC_CONF_NODE_MAX_URI_SIZE payloadS4 = [payloadS4] ∧
    ack_parse_intended 16 BSC_CONF_NODE_MAX_URI_SIZE payloadS4 =
      [urlS4a, urlS4b] ∧
    ([payloadS4] : List (List Nat)) ≠ [urlS4a, urlS4b] ∧
    bsc_node_process_received true
        (NodeState.mk BscNodeState.STARTED [] true true true true true
          [ResolutionEntry.mk false [] [] false])
        []
        (DecodedPdu.mk BvlcFunction.ADDRESS_RESOLUTION_ACK 1 [9] [] false
          BvlcFunction.RESULT payloadS4) =
      ((NodeState.mk BscNodeState.STARTED [] true true true true true
          [ResolutionEntry.mk true [9] [payloadS4] false]),
        [NodeAction.procAddrRes 0]) := by
  refine ⟨by decide, by decide, by decide, by decide⟩

/-- Clearing a handle never touches the node state field. -/
theorem clearHandle_preserves_state (src : SubSource) (n : NodeState) :
    (clearHandle src n).state = n.state := by
  cases src <;> rfl

/-- Clearing a handle never touches the enable flags, the VMAC or the
resolution table. -/
theorem clearHandle_preserves_conf (src : SubSource) (n : NodeState) :
    (clearHandle src n).hubFunctionEnabled = n.hubFunctionEnabled ∧
    (clearHandle src n).nodeSwitchEnabled = n.nodeSwitchEnabled ∧
    (clearHandle src n).localVmac = n.localVmac ∧
    (clearHandle src n).resolution = n.resolution := by
  cases src <;> exact ⟨rfl, rfl, rfl, rfl⟩

/-- When all three sub-component starts succeed, the restart start
sequence regenerates the VMAC, re-creates all enabled handles and issues
the corresponding start requests, staying in RESTARTING. -/
theorem bsc_node_start_state_restarting_success (o : StartOracle)
    (m : NodeState) (hc : o.hubConnectorRet = BscRet.SUCCESS)
    (hf : o.hubFunctionRet = BscRet.SUCCESS)
    (hn : o.nodeSwitchRet = BscRet.SUCCESS) :
    bsc_node_start_state o BscNodeState.RESTARTING m =
      ({ m with state := BscNodeState.RESTARTING,
                localVmac := o.freshVmac,
                hubConnector := true,
                hubFunction := m.hubFunctionEnabled,
                nodeSwitch := m.nodeSwitchEnabled },
        [NodeAction.startHubConnector] ++
          (if m.hubFunctionEnabled = true then [NodeAction.startHubFunction]
            else []) ++
          (if m.nodeSwitchEnabled = true then [NodeAction.startNodeSwitch]
            else []),
        BscRet.SUCCESS) := by
  obtain ⟨st, lv, hcb, hfb, nsb, hfe, nse, res⟩ := m
  cases hfe <;> cases nse <;>
    simp [bsc_node_start_state, hc, hf, hn]

/-- The control-PDU handler never emits RESTARTED. -/
theorem bsc_node_process_received_no_restarted (ok : Bool) (n : NodeState)
    (pdu : List Nat) (p : DecodedPdu) :
    NodeAction.emit NodeEvent.RESTARTED ∉
      (bsc_node_process_received ok n pdu p).2 := by
  unfold bsc_node_process_received
  repeat' split
  all_goals try
    (cases halloc : node_alloc_address_resolution n.resolution p.origin with
      | none => simp [halloc]
      | some r => obtain ⟨i, t⟩ := r; simp [halloc])

/-- RESTARTED can only be emitted out of the RESTARTING state: any step of
the node aggregate taken in another state emits no RESTARTED event. -/
theorem restarted_only_from_restarting (o : NodeOracle) (m : NodeState)
    (inp : NodeInput) (hm : m.state ≠ BscNodeState.RESTARTING) :
    NodeAction.emit NodeEvent.RESTARTED ∉ (bsc_node_step o m inp).2 := by
  cases inp with
  | started src =>
    cases src with
    | hubc => simp [bsc_node_step]
    | hubf =>
      by_cases hall : allStarted m o.sub = true <;>
        by_cases hst : m.state = BscNodeState.STARTING <;>
          simp [bsc_node_step, bsc_node_process_start_event, hall, hst, hm]
    | nsw =>
      by_cases hall : allStarted m o.sub = true <;>
        by_cases hst : m.state = BscNodeState.STARTING <;>
          simp [bsc_node_step, bsc_node_process_start_event, hall, hst, hm]
  | stopped src =>
    have hst := clearHandle_preserves_state src m
    by_cases hsp : m.state = BscNodeState.STOPPING
    · by_cases hall : allStopped (clearHandle src m) o.sub = true <;>
        simp [bsc_node_step, bsc_node_process_stop_event, hst, hsp, hall]
    · simp [bsc_node_step, bsc_node_process_stop_event, hst, hsp, hm]
  | dupVmac src =>
    by_cases hcond : m.state ≠ BscNodeState.STOPPING ∧
        m.state ≠ BscNodeState.RESTARTING
    · simp only [bsc_node_step, if_pos hcond, bsc_node_restart]
      split_ifs <;> simp
    · simp [bsc_node_step, hcond]
  | received src pdu p =>
    cases src with
    | hubf => simp [bsc_node_step]
    | hubc =>
      simpa [bsc_node_step] using
        bsc_node_process_received_no_restarted o.encodeOk m pdu p
    | nsw =>
      simpa [bsc_node_step] using
        bsc_node_process_received_no_restarted o.encodeOk m pdu p

/-- C1: a duplicate-VMAC report in any state other than STOPPING or
RESTARTING moves the node to RESTARTING and requests stop on the
sub-components; once every sub-component is observed stopped the node
regenerates its VMAC (to a value differing from the one before, per the
fresh-random oracle) and re-runs the start sequence staying in RESTARTING;
the completing started-event emits RESTARTED exactly once over the whole
trace, and no step taken outside RESTARTING can ever emit RESTARTED. -/
theorem C1_duplicate_vmac_restart
    (o1 o2 o3 : NodeOracle) (n : NodeState) (s1 s2 s3 : SubSource)
    (hstp : n.state ≠ BscNodeState.STOPPING)
    (hrst : n.state ≠ BscNodeState.RESTARTING)
    (hstop : allStopped
      (clearHandle s2 (bsc_node_step o1 n (NodeInput.dupVmac s1)).1)
      o2.sub = true)
    (hcr : o2.start.hubConnectorRet = BscRet.SUCCESS)
    (hfr : o2.start.hubFunctionRet = BscRet.SUCCESS)
    (hnr : o2.start.nodeSwitchRet = BscRet.SUCCESS)
    (hfresh : o2.start.freshVmac ≠ n.localVmac)
    (hs3 : s3 ≠ SubSource.hubc)
    (hstart : allStarted
      (bsc_node_step o2 (bsc_node_step o1 n (NodeInput.dupVmac s1)).1
        (NodeInput.stopped s2)).1 o3.sub = true) :
    (bsc_node_step o1 n (NodeInput.dupVmac s1)).1.state =
      BscNodeState.RESTARTING ∧
    NodeAction.stopHubConnector ∈
      (bsc_node_step o1 n (NodeInput.dupVmac s1)).2 ∧
    (n.hubFunction = true → n.hubFunctionEnabled = true →
      NodeAction.stopHubFunction ∈
        (bsc_node_step o1 n (NodeInput.dupVmac s1)).2) ∧
    (n.nodeSwitchEnabled = true →
      NodeAction.stopNodeSwitch ∈
        (bsc_node_step o1 n (NodeInput.dupVmac s1)).2) ∧
    (bsc_node_step o2 (bsc_node_step o1 n (NodeInput.dupVmac s1)).1
      (NodeInput.stopped s2)).1.localVmac = o2.start.freshVmac ∧
    (bsc_node_step o2 (bsc_node_step o1 n (NodeInput.dupVmac s1)).1
      (NodeInput.stopped s2)).1.localVmac ≠ n.localVmac ∧
    (bsc_node_step o2 (bsc_node_step o1 n (NodeInput.dupVmac s1)).1
      (NodeInput.stopped s2)).1.state = BscNodeState.RESTARTING ∧
    NodeAction.startHubConnector ∈
      (bsc_node_step o2 (bsc_node_step o1 n (NodeInput.dupVmac s1)).1
        (NodeInput.stopped s2)).2 ∧
    bsc_node_step o3
        (bsc_node_step o2 (bsc_node_step o1 n (NodeInput.dupVmac s1)).1
          (NodeInput.stopped s2)).1 (NodeInput.started s3) =
      ({ (bsc_node_step o2 (bsc_node_step o1 n (NodeInput.dupVmac s1)).1
          (NodeInput.stopped s2)).1 with state := BscNodeState.STARTED },
        [NodeAction.emit NodeEvent.RESTARTED]) ∧
    ((bsc_node_step o1 n (NodeInput.dupVmac s1)).2 ++
      (bsc_node_step o2 (bsc_node_step o1 n (NodeInput.dupVmac s1)).1
        (NodeInput.stopped s2)).2 ++
      (bsc_node_step o3
        (bsc_node_step o2 (bsc_node_step o1 n (NodeInput.dupVmac s1)).1
          (NodeInput.stopped s2)).1 (NodeInput.started s3)).2).count
        (NodeAction.emit NodeEvent.RESTARTED) = 1 ∧
    (∀ (o : NodeOracle) (m : NodeState) (inp : NodeInput),
      m.state ≠ BscNodeState.RESTARTING →
      NodeAction.emit NodeEvent.RESTARTED ∉ (bsc_node_step o m inp).2) := by
  have e1 : bsc_node_step o1 n (NodeInput.dupVmac s1) =
      ({ n with state := BscNodeState.RESTARTING },
        [NodeAction.stopHubConnector] ++
          (if n.hubFunction = true ∧ n.hubFunctionEnabled = true then
            [NodeAction.stopHubFunction] else []) ++
          (if n.nodeSwitchEnabled = true then
            [NodeAction.stopNodeSwitch] else [])) := by
    simp [bsc_node_step, hstp, hrst, bsc_node_restart]
  simp only [e1] at hstop
  have hclst : (clearHandle s2 { n with state := BscNodeState.RESTARTING }).state =
      BscNodeState.RESTARTING := by
    rw [clearHandle_preserves_state]
  have e2 : bsc_node_step o2 { n with state := BscNodeState.RESTARTING }
        (NodeInput.stopped s2) =
      ({ clearHandle s2 { n with state := BscNodeState.RESTARTING } with
          state := BscNodeState.RESTARTING,
          localVmac := o2.start.freshVmac,
          hubConnector := true,
          hubFunction := (clearHandle s2
            { n with state := BscNodeState.RESTARTING }).hubFunctionEnabled,
          nodeSwitch := (clearHandle s2
            { n with state := BscNodeState.RESTARTING }).nodeSwitchEnabled },
        [NodeAction.startHubConnector] ++
          (if (clearHandle s2
              { n with state := BscNodeState.RESTARTING }).hubFunctionEnabled =
              true then [NodeAction.startHubFunction] else []) ++
          (if (clearHandle s2
              { n with state := BscNodeState.RESTARTING }).nodeSwitchEnabled =
              true then [NodeAction.startNodeSwitch] else [])) := by
    simp only [bsc_node_step, bsc_node_process_stop_event, hclst, hstop,
      bsc_node_start_state_restarting_success o2.start _ hcr hfr hnr]
    simp
  simp only [e1, e2] at hstart
  have e3 : bsc_node_step o3
        (bsc_node_step o2 (bsc_node_step o1 n (NodeInput.dupVmac s1)).1
          (NodeInput.stopped s2)).1 (NodeInput.started s3) =
      ({ (bsc_node_step o2 (bsc_node_step o1 n (NodeInput.dupVmac s1)).1
          (NodeInput.stopped s2)).1 with state := BscNodeState.STARTED },
        [NodeAction.emit NodeEvent.RESTARTED]) := by
    simp only [e1, e2]
    cases s3 with
    | hubc => exact absurd rfl hs3
    | hubf =>
      simp [bsc_node_step, bsc_node_process_start_event, hstart]
    | nsw =>
      simp [bsc_node_step, bsc_node_process_start_event, hstart]
  refine ⟨?_, ?_, ?_, ?_, ?_, ?_, ?_, ?_, e3, ?_, ?_⟩
  · simp only [e1]
  · simp only [e1]
    simp
  · intro h1 h2
    simp only [e1]
    simp [h1, h2]
  · intro h1
    simp only [e1]
    simp [h1]
  · simp only [e1, e2]
  · simp only [e1, e2]
    simpa using hfresh
  · simp only [e1, e2]
  · simp only [e1, e2]
    simp
  · simp only [e3]
    simp only [e1, e2]
    split_ifs <;> decide
  · exact fun o m inp hm => restarted_only_from_restarting o m inp hm

/-- C1 witness: driving the concrete fully-enabled node through a
duplicate-VMAC report, an all-stopped observation and an all-started
observation: it enters RESTARTING, changes its VMAC and emits RESTARTED
exactly once over the trace. -/
theorem C1_duplicate_vmac_restart_witness :
    (bsc_node_step oracleC1a nodeC1 (NodeInput.dupVmac SubSource.hubc)).1.state =
      BscNodeState.RESTARTING ∧
    (bsc_node_step oracleC1b
      (bsc_node_step oracleC1a nodeC1 (NodeInput.dupVmac SubSource.hubc)).1
      (NodeInput.stopped SubSource.hubf)).1.localVmac ≠ nodeC1.localVmac ∧
    ((bsc_node_step oracleC1a nodeC1 (NodeInput.dupVmac SubSource.hubc)).2 ++
      (bsc_node_step oracleC1b
        (bsc_node_step oracleC1a nodeC1 (NodeInput.dupVmac SubSource.hubc)).1
        (NodeInput.stopped SubSource.hubf)).2 ++
      (bsc_node_step oracleC1c
        (bsc_node_step oracleC1b
          (bsc_node_step oracleC1a nodeC1 (NodeInput.dupVmac SubSource.hubc)).1
          (NodeInput.stopped SubSource.hubf)).1
        (NodeInput.started SubSource.nsw)).2).count
        (NodeAction.emit NodeEvent.RESTARTED) = 1 := by
  have h := C1_duplicate_vmac_restart oracleC1a oracleC1b oracleC1c nodeC1
    SubSource.hubc SubSource.hubf SubSource.nsw (by decide) (by decide)
    (by decide) rfl rfl rfl (by decide) (by decide) (by decide)
  exact ⟨h.1, h.2.2.2.2.2.1, h.2.2.2.2.2.2.2.2.2.1⟩
